import Mathlib

/-!
Verification of the CLI orchestration layer of EIR-auto-GP
(`src/eir_auto_gp/run.py`): argument validation, output-folder
resolution, pre-split-folder detection, configuration-dictionary
construction and task submission.

The Python `argparse.Namespace` produced by the parser is modelled as a
record `Namespace` whose fields mirror the `add_argument` declarations.
Optional string arguments default to `None` in argparse, so they are
`Option String`; Python truthiness on such a field (`if args.x:`) is
`truthy`, false for `none` and for the empty string.  Python `float`
fields are modelled as `Rat` (no claim performs float arithmetic; the
value is only copied).  Exceptions (`ValueError`) are modelled with
`Except String`, carrying the message text.  Filesystem and environment
lookups (`Path.exists`, `pd.read_csv(..).columns`, `shutil.which`) are
modelled as fields of an explicit `World` record.
-/

/-- Value of one attribute of the parsed argparse namespace, as stored in
the stage configuration dictionaries. -/
inductive Value where
  | vStr (s : String)
  | vOptStr (o : Option String)
  | vInt (n : Int)
  | vRat (q : Rat)
  | vStrList (xs : List String)
  | vBool (b : Bool)
deriving DecidableEq, Repr

/-- The parsed CLI arguments record: one field per `parser.add_argument`
call in `get_argument_parser` (src/eir_auto_gp/run.py lines 18-182).
Optional arguments with no default are `Option String` (argparse stores
`None`); `output_name` defaults to a string, `folds` to a string,
the column lists to `[]`, `do_test` to `False`. -/
structure Namespace where
  genotype_data_path : String
  label_file_path : String
  global_output_folder : Option String
  data_output_folder : Option String
  feature_selection_output_folder : Option String
  modelling_output_folder : Option String
  analysis_output_folder : Option String
  output_name : String
  pre_split_folder : Option String
  feature_selection : Option String
  n_dl_feature_selection_folds : Int
  gwas_p_value_threshold : Rat
  folds : String
  input_cat_columns : List String
  input_con_columns : List String
  output_cat_columns : List String
  output_con_columns : List String
  do_test : Bool
deriving DecidableEq, Repr

/-- Python truthiness of an optional-string attribute: `None` and the
empty string are falsy, every other string is truthy. -/
def truthy : Option String → Bool
  | none => false
  | some s => !s.isEmpty

/-- Python `s.rstrip("/")`: remove every trailing `/` character. -/
def rstripSlash (s : String) : String :=
  String.mk ((s.data.reverse.dropWhile (fun c => c = '/')).reverse)

/-- Message raised when the data output folder is missing
(run.py lines 300-304; adjacent Python string literals concatenate). -/
def missingDataMsg : String :=
  "Missing data output folder. Either a global output folder or a data output folder must be provided."

/-- Message raised when the feature selection output folder is missing
(run.py lines 306-310). -/
def missingFeatureSelectionMsg : String :=
  "Missing feature selection output folder. Either a global output folder or a feature selection output folder must be provided."

/-- Message raised when the modelling output folder is missing
(run.py lines 312-316). -/
def missingModellingMsg : String :=
  "Missing modelling output folder. Either a global output folder or a modelling output folder must be provided."

/-- Message raised when the analysis output folder is missing
(run.py lines 318-322; the source says "a analysis"). -/
def missingAnalysisMsg : String :=
  "Missing analysis output folder. Either a global output folder or a analysis output folder must be provided."

/-- Embedding of `parse_output_folders` (run.py lines 290-324).
`copy(cl_args)` is a shallow copy of the namespace; patching attributes
on the copy is record update.  If `global_output_folder` is truthy the
four sub-folders are derived from it after `rstrip("/")`; otherwise each
of the four specific folders is checked for truthiness in order and the
first falsy one raises a `ValueError`. -/
def parse_output_folders (cl_args : Namespace) : Except String Namespace :=
  let cl_args_copy := cl_args
  if truthy cl_args_copy.global_output_folder then
    let gof := rstripSlash (cl_args_copy.global_output_folder.getD "")
    .ok { cl_args_copy with
          data_output_folder := some (gof ++ "/data"),
          feature_selection_output_folder := some (gof ++ "/feature_selection"),
          modelling_output_folder := some (gof ++ "/modelling"),
          analysis_output_folder := some (gof ++ "/analysis") }
  else if !truthy cl_args_copy.data_output_folder then
    .error missingDataMsg
  else if !truthy cl_args_copy.feature_selection_output_folder then
    .error missingFeatureSelectionMsg
  else if !truthy cl_args_copy.modelling_output_folder then
    .error missingModellingMsg
  else if !truthy cl_args_copy.analysis_output_folder then
    .error missingAnalysisMsg
  else
    .ok cl_args_copy

/-- Concrete arguments record used by witnesses and counterexamples:
required paths set, all optional folders unset, parser defaults for the
rest, one categorical target column. -/
def exArgs : Namespace where
  genotype_data_path := "geno"
  label_file_path := "labels.csv"
  global_output_folder := none
  data_output_folder := none
  feature_selection_output_folder := none
  modelling_output_folder := none
  analysis_output_folder := none
  output_name := "genotype"
  pre_split_folder := none
  feature_selection := some "gwas->dl"
  n_dl_feature_selection_folds := 3
  gwas_p_value_threshold := 1 / 10000
  folds := "0-5"
  input_cat_columns := []
  input_con_columns := []
  output_cat_columns := ["phenotype"]
  output_con_columns := []
  do_test := false

example :
    parse_output_folders { exArgs with global_output_folder := some "out/" } =
      .ok { exArgs with
              global_output_folder := some "out/",
              data_output_folder := some "out/data",
              feature_selection_output_folder := some "out/feature_selection",
              modelling_output_folder := some "out/modelling",
              analysis_output_folder := some "out/analysis" } := by
  rfl

/-- The environment `run.py` reads: `Path(p).exists()`,
`pd.read_csv(p, nrows=1).columns` (header row of a csv file),
`shutil.which` (executable lookup on the search path), and the
genotype-data validity judgment of the external
`validate_geno_data_path` collaborator. -/
structure World where
  pathExists : String → Bool
  csvColumns : String → List String
  which : String → Option String
  genoDataValid : String → Bool

/-- Single-quote character, used to render Python string reprs. -/
def singleQuote : Char := Char.ofNat 39

/-- Python `repr` of a plain string (no escaping needed for the
column names at issue): the string between single quotes. -/
def pyStrRepr (s : String) : String :=
  String.mk [singleQuote] ++ s ++ String.mk [singleQuote]

/-- Python `repr` of a list of plain strings: `[` then the reprs
joined by `, ` then `]`. -/
def pyStrListRepr (xs : List String) : String :=
  "[" ++ String.intercalate ", " (xs.map pyStrRepr) ++ "]"

/-- Embedding of `validate_label_file` (run.py lines 191-219).
Checks, in order: the path exists; the header row contains `ID`; every
requested input/output column occurs in the header (the source forms
`set(requested) - set(columns)` and fails when it is nonempty — here the
missing columns are the requested ones absent from the header, deduplicated;
the source interpolates that set's repr into the message, whose element
order is Python-set iteration order, so only the message's fixed prefix
is modelled for that branch). -/
def validate_label_file (w : World) (label_file_path : String)
    (input_cat_columns input_con_columns output_cat_columns output_con_columns :
      List String) : Except String Unit :=
  if !(w.pathExists label_file_path) then
    .error ("Label file path " ++ label_file_path ++ " is invalid. " ++
      "Expected to find " ++ label_file_path ++ ".")
  else
    let columns := w.csvColumns label_file_path
    if "ID" ∉ columns then
      .error ("Label file path " ++ label_file_path ++ " is invalid. " ++
        "Expected to find " ++ pyStrRepr "ID" ++ " column.")
    else
      let all_columns :=
        (input_cat_columns ++ input_con_columns ++
          output_cat_columns ++ output_con_columns).dedup
      let missing_columns := all_columns.filter (fun c => decide (c ∉ columns))
      if missing_columns.length > 0 then
        .error ("Label file path " ++ label_file_path ++ " is invalid. " ++
          "Expected to find columns ")
      else
        .ok ()

/-- Embedding of `validate_targets` (run.py lines 222-235): error when
both output-column lists are empty, error when their total length
exceeds one, otherwise return normally. -/
def validate_targets (output_con_columns output_cat_columns : List String) :
    Except String Unit :=
  if output_con_columns.length = 0 ∧ output_cat_columns.length = 0 then
    .error "At least one output column must be specified as continuous or categorical."
  else if output_con_columns.length + output_cat_columns.length > 1 then
    .error ("Currently only one target column per run is supported. Got " ++
      pyStrListRepr output_con_columns ++ " continuous and " ++
      pyStrListRepr output_cat_columns ++ " categorical target columns.")
  else
    .ok ()

/-- Embedding of `validate_plink2_exists_in_path` (run.py lines 238-243):
error when `shutil.which("plink2")` returns `None`. -/
def validate_plink2_exists_in_path (w : World) : Except String Unit :=
  if w.which "plink2" = none then
    .error "plink2 is not installed or not in the path. Please install plink2 and try again."
  else
    .ok ()

/-- Modelled from the spec: `validate_geno_data_path` is imported from
`eir_auto_gp.preprocess.gwas_pre_selection`, whose source is not in the
provided files.  Per the spec it "fails with `ConfigurationError` if the
configured root does not contain the expected companion files for a
genotype dataset" (the exact file set is the collaborator's contract), so
its verdict is the abstract `World.genoDataValid` judgment. -/
def validate_geno_data_path (w : World) (geno_data_path : String) :
    Except String Unit :=
  if w.genoDataValid geno_data_path then
    .ok ()
  else
    .error ("Genotype data path " ++ geno_data_path ++ " is invalid.")

/-- Python `str(Path(p) / "ids")` for the paths `run.py` builds: pathlib
drops trailing separators of `p`, and joining the bare name `ids` onto
the empty path gives `ids` (both Python stdlib behaviour, not repository
code). -/
def pathSlashIds (p : String) : String :=
  let stripped := rstripSlash p
  if stripped.isEmpty then "ids" else stripped ++ "/ids"

/-- Embedding of `_add_pre_split_folder_if_present` (run.py lines
327-338): shallow-copy the namespace; if the `ids` subfolder of the
genotype data root exists, set `pre_split_folder` on the copy to that
path (the source also emits an informational log line, which carries no
state); return the copy. -/
def _add_pre_split_folder_if_present (w : World) (cl_args : Namespace) : Namespace :=
  let cl_args_copy := cl_args
  let genotype_path := cl_args_copy.genotype_data_path
  if w.pathExists (pathSlashIds genotype_path) then
    { cl_args_copy with pre_split_folder := some (pathSlashIds genotype_path) }
  else
    cl_args_copy

/-- Python `getattr` on the parsed namespace: `some` of the attribute's
value for each field the parser declares, `none` (an `AttributeError` in
Python) for any other name. -/
def getattr (ns : Namespace) : String → Option Value
  | "genotype_data_path" => some (.vStr ns.genotype_data_path)
  | "label_file_path" => some (.vStr ns.label_file_path)
  | "global_output_folder" => some (.vOptStr ns.global_output_folder)
  | "data_output_folder" => some (.vOptStr ns.data_output_folder)
  | "feature_selection_output_folder" => some (.vOptStr ns.feature_selection_output_folder)
  | "modelling_output_folder" => some (.vOptStr ns.modelling_output_folder)
  | "analysis_output_folder" => some (.vOptStr ns.analysis_output_folder)
  | "output_name" => some (.vStr ns.output_name)
  | "pre_split_folder" => some (.vOptStr ns.pre_split_folder)
  | "feature_selection" => some (.vOptStr ns.feature_selection)
  | "n_dl_feature_selection_folds" => some (.vInt ns.n_dl_feature_selection_folds)
  | "gwas_p_value_threshold" => some (.vRat ns.gwas_p_value_threshold)
  | "folds" => some (.vStr ns.folds)
  | "input_cat_columns" => some (.vStrList ns.input_cat_columns)
  | "input_con_columns" => some (.vStrList ns.input_con_columns)
  | "output_cat_columns" => some (.vStrList ns.output_cat_columns)
  | "output_con_columns" => some (.vStrList ns.output_con_columns)
  | "do_test" => some (.vBool ns.do_test)
  | _ => none

/-- The attribute names `get_argument_parser` declares, in declaration
order (run.py lines 18-182). -/
def namespaceFields : List String :=
  ["genotype_data_path", "label_file_path", "global_output_folder",
   "data_output_folder", "feature_selection_output_folder",
   "modelling_output_folder", "analysis_output_folder", "output_name",
   "pre_split_folder", "feature_selection", "n_dl_feature_selection_folds",
   "gwas_p_value_threshold", "folds", "input_cat_columns",
   "input_con_columns", "output_cat_columns", "output_con_columns",
   "do_test"]

/-- A stage configuration dictionary: insertion-ordered keys paired with
the looked-up attribute values (`none` marks a Python `AttributeError`,
which never occurs for the key lists the builders use). -/
abbrev Config := List (String × Option Value)

/-- Embedding of `extract_from_namespace` (run.py lines 388-391): the
dict comprehension over `keys` in order. -/
def extract_from_namespace (namespace_ : Namespace) (keys : List String) : Config :=
  keys.map (fun key => (key, getattr namespace_ key))

/-- Key list of `build_data_config` (run.py lines 342-348). -/
def data_keys : List String :=
  ["genotype_data_path", "label_file_path", "data_output_folder",
   "output_name", "pre_split_folder"]

/-- Embedding of `build_data_config` (run.py lines 341-353): extract the
data keys, then add the synthetic key `output_format` mapped to the
constant `"deeplake"` (a fresh key, hence appended in dict order). -/
def build_data_config (cl_args : Namespace) : Config :=
  extract_from_namespace cl_args data_keys ++ [("output_format", some (.vStr "deeplake"))]

/-- Key list of `build_feature_selection_config` (run.py lines 357-362). -/
def feature_selection_keys : List String :=
  ["feature_selection_output_folder", "feature_selection",
   "n_dl_feature_selection_folds", "gwas_p_value_threshold"]

/-- Embedding of `build_feature_selection_config` (run.py lines 356-364). -/
def build_feature_selection_config (cl_args : Namespace) : Config :=
  extract_from_namespace cl_args feature_selection_keys

/-- Key list of `build_modelling_config` (run.py lines 368-375). -/
def modelling_keys : List String :=
  ["modelling_output_folder", "input_cat_columns", "input_con_columns",
   "output_cat_columns", "output_con_columns", "do_test"]

/-- Embedding of `build_modelling_config` (run.py lines 367-377). -/
def build_modelling_config (cl_args : Namespace) : Config :=
  extract_from_namespace cl_args modelling_keys

/-- Key list of `build_analysis_config` (run.py lines 381-383). -/
def analysis_keys : List String :=
  ["analysis_output_folder"]

/-- Embedding of `build_analysis_config` (run.py lines 380-385). -/
def build_analysis_config (cl_args : Namespace) : Config :=
  extract_from_namespace cl_args analysis_keys

/-- The root workflow task `run` constructs (run.py lines 268-274):
`RunAnalysisWrapper` parameterized by the fold specification and the
four stage configurations. -/
structure RootTask where
  folds : String
  data_config : Config
  feature_selection_config : Config
  modelling_config : Config
  analysis_config : Config
deriving DecidableEq

/-- One observable step of `run` (run.py lines 246-280), recorded in
execution order: the four validations, the two namespace passes, the
four config constructions, and the submission of the root task to
`luigi.build`. -/
inductive Step where
  | validatedGeno
  | validatedLabelFile
  | validatedTargets
  | validatedPlink2
  | resolvedOutputFolders
  | detectedPreSplit
  | builtDataConfig
  | builtFeatureSelectionConfig
  | builtModellingConfig
  | builtAnalysisConfig
  | submittedTask (t : RootTask)
deriving DecidableEq

/-- Embedding of `run` (run.py lines 246-280) as a trace semantics: the
list of steps performed, in order, paired with the outcome (`.error e`
when a raised `ValueError` with message `e` aborts the run at that
point).  The source's statement order is kept exactly: the four
validators, then `parse_output_folders`, then
`_add_pre_split_folder_if_present`, then the four config builders, then
construction and submission of the root task. -/
def run (w : World) (cl_args : Namespace) : List Step × Except String Unit :=
  match validate_geno_data_path w cl_args.genotype_data_path with
  | .error e => ([], .error e)
  | .ok () =>
  match validate_label_file w cl_args.label_file_path cl_args.input_cat_columns
      cl_args.input_con_columns cl_args.output_cat_columns cl_args.output_con_columns with
  | .error e => ([.validatedGeno], .error e)
  | .ok () =>
  match validate_targets cl_args.output_con_columns cl_args.output_cat_columns with
  | .error e => ([.validatedGeno, .validatedLabelFile], .error e)
  | .ok () =>
  match validate_plink2_exists_in_path w with
  | .error e => ([.validatedGeno, .validatedLabelFile, .validatedTargets], .error e)
  | .ok () =>
  match parse_output_folders cl_args with
  | .error e =>
      ([.validatedGeno, .validatedLabelFile, .validatedTargets, .validatedPlink2], .error e)
  | .ok cl_args1 =>
  let cl_args2 := _add_pre_split_folder_if_present w cl_args1
  let data_config := build_data_config cl_args2
  let feature_selection_config := build_feature_selection_config cl_args2
  let modelling_config := build_modelling_config cl_args2
  let analysis_config := build_analysis_config cl_args2
  let root_task : RootTask :=
    { folds := cl_args2.folds
      data_config := data_config
      feature_selection_config := feature_selection_config
      modelling_config := modelling_config
      analysis_config := analysis_config }
  ([.validatedGeno, .validatedLabelFile, .validatedTargets, .validatedPlink2,
    .resolvedOutputFolders, .detectedPreSplit, .builtDataConfig,
    .builtFeatureSelectionConfig, .builtModellingConfig, .builtAnalysisConfig,
    .submittedTask root_task], .ok ())

/-- A world in which every path exists, the label file's header is
`ID, phenotype, covariate1`, plink2 is on the search path, and the
genotype data root is valid; used by witnesses. -/
def exWorld : World where
  pathExists := fun _ => true
  csvColumns := fun _ => ["ID", "phenotype", "phenotype2", "covariate1"]
  which := fun _ => some "/usr/bin/plink2"
  genoDataValid := fun _ => true

example :
    validate_targets [] ["phenotype"] = .ok () := by rfl

example :
    (validate_targets ["phenotype2"] ["phenotype"]).isOk = false := by decide

example :
    validate_label_file exWorld "labels.csv" [] ["covariate1"] ["phenotype"] [] = .ok () := by
  rfl


/-- Helper: truthiness of an unset optional argument. -/
@[simp] theorem truthy_none : truthy none = false := rfl

/-- Helper: truthiness of a set optional argument is nonemptiness. -/
@[simp] theorem truthy_some (s : String) : truthy (some s) = !s.isEmpty := rfl

/-- Helper: the empty string is `isEmpty`. -/
@[simp] theorem isEmpty_empty_string : "".isEmpty = true := rfl

/-- Helper: stripping after appending one separator is the same as
stripping the original string. -/
theorem rstripSlash_append_slash (s : String) :
    rstripSlash (s ++ "/") = rstripSlash s := by
  simp [rstripSlash, String.data_append]

/-- Helper: a nonempty string is not `isEmpty`. -/
theorem isEmpty_false_of_ne (s : String) (h : s ≠ "") : s.isEmpty = false := by
  cases hb : s.isEmpty with
  | false => rfl
  | true => exact absurd ((String.isEmpty_iff s).mp hb) h

/-- Helper: a string with a separator appended is nonempty. -/
theorem append_slash_ne_empty (s : String) : s ++ "/" ≠ "" := by
  intro h
  have := congrArg String.data h
  simp [String.data_append] at this

/-- C1 (amended): for an arguments record whose `global_output_folder` is
a nonempty string `G` and whose four specific sub-folder fields are
unset, `parse_output_folders` returns a record whose four output folders
are `G'/data`, `G'/feature_selection`, `G'/modelling`, `G'/analysis`
where `G'` is `G` with trailing separators stripped — so the resolved
folders are the same whether or not `G` ends with a trailing path
separator. -/
theorem parse_output_folders_global_resolves (ns : Namespace) (G : String)
    (hG : ns.global_output_folder = some G) (hne : G ≠ "")
    (_hd : ns.data_output_folder = none)
    (_hf : ns.feature_selection_output_folder = none)
    (_hm : ns.modelling_output_folder = none)
    (_ha : ns.analysis_output_folder = none) :
    parse_output_folders ns =
      .ok { ns with
            data_output_folder := some (rstripSlash G ++ "/data"),
            feature_selection_output_folder := some (rstripSlash G ++ "/feature_selection"),
            modelling_output_folder := some (rstripSlash G ++ "/modelling"),
            analysis_output_folder := some (rstripSlash G ++ "/analysis") } ∧
    parse_output_folders { ns with global_output_folder := some (G ++ "/") } =
      .ok { ns with
            global_output_folder := some (G ++ "/"),
            data_output_folder := some (rstripSlash G ++ "/data"),
            feature_selection_output_folder := some (rstripSlash G ++ "/feature_selection"),
            modelling_output_folder := some (rstripSlash G ++ "/modelling"),
            analysis_output_folder := some (rstripSlash G ++ "/analysis") } := by
  constructor
  · simp [parse_output_folders, hG, truthy, isEmpty_false_of_ne G hne]
  · simp [parse_output_folders, truthy,
      isEmpty_false_of_ne (G ++ "/") (append_slash_ne_empty G),
      rstripSlash_append_slash]

/-- C1 (witness): instantiates the amended folder-resolution theorem at
a concrete record with global output folder `out`. -/
theorem parse_output_folders_global_resolves_witness :
    parse_output_folders { exArgs with global_output_folder := some "out" } =
      .ok { exArgs with
            global_output_folder := some "out",
            data_output_folder := some (rstripSlash "out" ++ "/data"),
            feature_selection_output_folder := some (rstripSlash "out" ++ "/feature_selection"),
            modelling_output_folder := some (rstripSlash "out" ++ "/modelling"),
            analysis_output_folder := some (rstripSlash "out" ++ "/analysis") } :=
  (parse_output_folders_global_resolves
    { exArgs with global_output_folder := some "out" } "out"
    rfl (by decide) rfl rfl rfl rfl).1

/-- C1 (counterexample): with `global_output_folder` set to the string
`""` (and no sub-folders set) the function does not return a record at
all — it raises the missing-data-folder error, refuting the claim as
stated for every string `G`. -/
theorem parse_output_folders_empty_global_counterexample :
    parse_output_folders { exArgs with global_output_folder := some "" } =
      .error missingDataMsg ∧
    ∀ res, parse_output_folders { exArgs with global_output_folder := some "" } ≠
      .ok res := by
  refine ⟨rfl, fun res h => ?_⟩
  exact Except.noConfusion ((show parse_output_folders
    { exArgs with global_output_folder := some "" } =
      Except.error missingDataMsg from rfl).symm.trans h)

/-- C2: with `global_output_folder` unset, `parse_output_folders` raises
the error naming the first missing folder, the checks running in the
fixed order data, feature selection, modelling, analysis (a folder is
missing when its field is falsy, i.e. unset or the empty string). -/
theorem parse_output_folders_missing_folder_order (ns : Namespace)
    (hg : ns.global_output_folder = none) :
    (truthy ns.data_output_folder = false →
      parse_output_folders ns = .error missingDataMsg) ∧
    (truthy ns.data_output_folder = true →
      truthy ns.feature_selection_output_folder = false →
      parse_output_folders ns = .error missingFeatureSelectionMsg) ∧
    (truthy ns.data_output_folder = true →
      truthy ns.feature_selection_output_folder = true →
      truthy ns.modelling_output_folder = false →
      parse_output_folders ns = .error missingModellingMsg) ∧
    (truthy ns.data_output_folder = true →
      truthy ns.feature_selection_output_folder = true →
      truthy ns.modelling_output_folder = true →
      truthy ns.analysis_output_folder = false →
      parse_output_folders ns = .error missingAnalysisMsg) := by
  refine ⟨fun h1 => ?_, fun h1 h2 => ?_, fun h1 h2 h3 => ?_, fun h1 h2 h3 h4 => ?_⟩ <;>
    simp [parse_output_folders, hg, *]

/-- C2 (witness): instantiates the fixed-order check at a record with no
output folders at all: the data folder is named first. -/
theorem parse_output_folders_missing_folder_order_witness :
    truthy exArgs.data_output_folder = false ∧
    parse_output_folders exArgs = .error missingDataMsg :=
  ⟨rfl, (parse_output_folders_missing_folder_order exArgs rfl).1 rfl⟩

/-- C10: `parse_output_folders` tests every folder field by Python
truthiness, so an empty string behaves like an absent value: with
`global_output_folder` set to `""` the required-folders branch runs —
any specific folder set to `""` is reported as missing by the first
failing check, and when all four are truthy the record passes
through unchanged. -/
theorem parse_output_folders_empty_string_falsy (ns : Namespace)
    (hg : ns.global_output_folder = some "") :
    (ns.data_output_folder = some "" →
      parse_output_folders ns = .error missingDataMsg) ∧
    (truthy ns.data_output_folder = true →
      ns.feature_selection_output_folder = some "" →
      parse_output_folders ns = .error missingFeatureSelectionMsg) ∧
    (truthy ns.data_output_folder = true →
      truthy ns.feature_selection_output_folder = true →
      ns.modelling_output_folder = some "" →
      parse_output_folders ns = .error missingModellingMsg) ∧
    (truthy ns.data_output_folder = true →
      truthy ns.feature_selection_output_folder = true →
      truthy ns.modelling_output_folder = true →
      ns.analysis_output_folder = some "" →
      parse_output_folders ns = .error missingAnalysisMsg) ∧
    (truthy ns.data_output_folder = true →
      truthy ns.feature_selection_output_folder = true →
      truthy ns.modelling_output_folder = true →
      truthy ns.analysis_output_folder = true →
      parse_output_folders ns = .ok ns) := by
  refine ⟨fun h1 => ?_, fun h1 h2 => ?_, fun h1 h2 h3 => ?_,
    fun h1 h2 h3 h4 => ?_, fun h1 h2 h3 h4 => ?_⟩ <;>
    simp [parse_output_folders, hg, *]

/-- C10 (witness): a record whose global output folder and data output
folder are both the empty string raises the missing-data-folder error. -/
theorem parse_output_folders_empty_string_falsy_witness :
    parse_output_folders
      { exArgs with global_output_folder := some "",
                    data_output_folder := some "" } = .error missingDataMsg :=
  (parse_output_folders_empty_string_falsy
    { exArgs with global_output_folder := some "", data_output_folder := some "" }
    rfl).1 rfl

/-- C3: `validate_targets` raises if and only if the total number of
output columns across the continuous and categorical lists is zero or
greater than one — equivalently it returns normally exactly when the
total is one. -/
theorem validate_targets_error_iff (output_con_columns output_cat_columns : List String) :
    ((validate_targets output_con_columns output_cat_columns).isOk = false ↔
      output_con_columns.length + output_cat_columns.length = 0 ∨
        output_con_columns.length + output_cat_columns.length > 1) ∧
    (validate_targets output_con_columns output_cat_columns = .ok () ↔
      output_con_columns.length + output_cat_columns.length = 1) := by
  unfold validate_targets
  constructor
  · split_ifs with h1 h2
    · exact iff_of_true rfl (by omega)
    · exact iff_of_true rfl (Or.inr h2)
    · exact iff_of_false (by decide) (by omega)
  · split_ifs with h1 h2
    · exact iff_of_false (by simp) (by omega)
    · exact iff_of_false (by simp) (by omega)
    · exact iff_of_true rfl (by omega)

/-- C4: `validate_label_file` raises if and only if the label file path
does not exist, or the header row lacks the `ID` column, or some
requested input/output column is absent from the header; otherwise it
returns normally. -/
theorem validate_label_file_error_iff (w : World) (label_file_path : String)
    (input_cat_columns input_con_columns output_cat_columns output_con_columns :
      List String) :
    (validate_label_file w label_file_path input_cat_columns input_con_columns
        output_cat_columns output_con_columns).isOk = false ↔
      w.pathExists label_file_path = false ∨
      "ID" ∉ w.csvColumns label_file_path ∨
      ¬ (input_cat_columns ++ input_con_columns ++
          output_cat_columns ++ output_con_columns) ⊆ w.csvColumns label_file_path := by
  unfold validate_label_file
  dsimp only
  split_ifs with h1 h2 h3
  · refine iff_of_true rfl (Or.inl ?_)
    revert h1
    cases w.pathExists label_file_path <;> simp
  · refine iff_of_true rfl (Or.inr (Or.inr ?_))
    intro hsub
    obtain ⟨c, hc⟩ := List.exists_mem_of_length_pos h3
    obtain ⟨hcd, hcn⟩ := List.mem_filter.mp hc
    exact (of_decide_eq_true hcn) (hsub (List.mem_dedup.mp hcd))
  · refine iff_of_false (by decide) ?_
    rintro (hp | hid | hsub)
    · revert h1
      simp [hp]
    · exact hid h2
    · refine hsub (fun c hc => ?_)
      by_contra hcn
      refine h3 (List.length_pos.mpr (fun hnil => ?_))
      have : c ∈ ([] : List String) := hnil ▸
        List.mem_filter.mpr ⟨List.mem_dedup.mpr hc, decide_eq_true hcn⟩
      exact absurd this (List.not_mem_nil c)
  · exact iff_of_true rfl (Or.inr (Or.inl h2))

/-- C6: whenever the `ids` subfolder exists directly under the genotype
data root, `_add_pre_split_folder_if_present` returns the record with
`pre_split_folder` set to that path, whatever the field held before. -/
theorem add_pre_split_folder_overrides (w : World) (ns : Namespace)
    (h : w.pathExists (pathSlashIds ns.genotype_data_path) = true) :
    _add_pre_split_folder_if_present w ns =
      { ns with pre_split_folder := some (pathSlashIds ns.genotype_data_path) } := by
  simp [_add_pre_split_folder_if_present, h]

/-- C6 (witness): an explicitly user-supplied pre-split folder is
replaced by the conventional `geno/ids` path when that path exists. -/
theorem add_pre_split_folder_overrides_witness :
    _add_pre_split_folder_if_present exWorld
        { exArgs with pre_split_folder := some "user_supplied" } =
      { exArgs with pre_split_folder := some (pathSlashIds exArgs.genotype_data_path) } :=
  add_pre_split_folder_overrides exWorld
    { exArgs with pre_split_folder := some "user_supplied" } rfl

/-- C7: each config builder produces exactly its fixed declared key
sequence, the four key sets are pairwise disjoint, and their union
without the synthetic `output_format` key lies inside the fields the
argument parser declares. -/
theorem config_builders_partition (cl_args : Namespace) :
    (build_data_config cl_args).map Prod.fst = data_keys ++ ["output_format"] ∧
    (build_feature_selection_config cl_args).map Prod.fst = feature_selection_keys ∧
    (build_modelling_config cl_args).map Prod.fst = modelling_keys ∧
    (build_analysis_config cl_args).map Prod.fst = analysis_keys ∧
    (∀ k ∈ data_keys ++ ["output_format"], k ∉ feature_selection_keys) ∧
    (∀ k ∈ data_keys ++ ["output_format"], k ∉ modelling_keys) ∧
    (∀ k ∈ data_keys ++ ["output_format"], k ∉ analysis_keys) ∧
    (∀ k ∈ feature_selection_keys, k ∉ modelling_keys) ∧
    (∀ k ∈ feature_selection_keys, k ∉ analysis_keys) ∧
    (∀ k ∈ modelling_keys, k ∉ analysis_keys) ∧
    (∀ k ∈ data_keys ++ ["output_format"] ++ feature_selection_keys ++
        modelling_keys ++ analysis_keys,
      k ≠ "output_format" → k ∈ namespaceFields) := by
  refine ⟨rfl, rfl, rfl, rfl, ?_, ?_, ?_, ?_, ?_, ?_, ?_⟩ <;> decide

/-- C8: `build_data_config` is the direct field lookup of the five data
keys together with the synthetic constant entry
`output_format ↦ "deeplake"`, and nothing else. -/
theorem build_data_config_spec (cl_args : Namespace) :
    build_data_config cl_args =
      [("genotype_data_path", some (.vStr cl_args.genotype_data_path)),
       ("label_file_path", some (.vStr cl_args.label_file_path)),
       ("data_output_folder", some (.vOptStr cl_args.data_output_folder)),
       ("output_name", some (.vStr cl_args.output_name)),
       ("pre_split_folder", some (.vOptStr cl_args.pre_split_folder)),
       ("output_format", some (.vStr "deeplake"))] := rfl

/-- C9: both copy-and-patch passes are copy-on-write: when
`parse_output_folders` succeeds, the returned record agrees with its
input on every field other than the four patched output-folder fields
(in particular `global_output_folder` itself is untouched), and
`_add_pre_split_folder_if_present` returns a record agreeing with its
input on every field other than `pre_split_folder`; the input record
itself is never changed. -/
theorem copy_on_write_frame (w : World) (ns ns' : Namespace) :
    (parse_output_folders ns = .ok ns' →
      ns'.genotype_data_path = ns.genotype_data_path ∧
      ns'.label_file_path = ns.label_file_path ∧
      ns'.global_output_folder = ns.global_output_folder ∧
      ns'.output_name = ns.output_name ∧
      ns'.pre_split_folder = ns.pre_split_folder ∧
      ns'.feature_selection = ns.feature_selection ∧
      ns'.n_dl_feature_selection_folds = ns.n_dl_feature_selection_folds ∧
      ns'.gwas_p_value_threshold = ns.gwas_p_value_threshold ∧
      ns'.folds = ns.folds ∧
      ns'.input_cat_columns = ns.input_cat_columns ∧
      ns'.input_con_columns = ns.input_con_columns ∧
      ns'.output_cat_columns = ns.output_cat_columns ∧
      ns'.output_con_columns = ns.output_con_columns ∧
      ns'.do_test = ns.do_test) ∧
    ((_add_pre_split_folder_if_present w ns).genotype_data_path = ns.genotype_data_path ∧
     (_add_pre_split_folder_if_present w ns).label_file_path = ns.label_file_path ∧
     (_add_pre_split_folder_if_present w ns).global_output_folder = ns.global_output_folder ∧
     (_add_pre_split_folder_if_present w ns).data_output_folder = ns.data_output_folder ∧
     (_add_pre_split_folder_if_present w ns).feature_selection_output_folder =
       ns.feature_selection_output_folder ∧
     (_add_pre_split_folder_if_present w ns).modelling_output_folder =
       ns.modelling_output_folder ∧
     (_add_pre_split_folder_if_present w ns).analysis_output_folder =
       ns.analysis_output_folder ∧
     (_add_pre_split_folder_if_present w ns).output_name = ns.output_name ∧
     (_add_pre_split_folder_if_present w ns).feature_selection = ns.feature_selection ∧
     (_add_pre_split_folder_if_present w ns).n_dl_feature_selection_folds =
       ns.n_dl_feature_selection_folds ∧
     (_add_pre_split_folder_if_present w ns).gwas_p_value_threshold =
       ns.gwas_p_value_threshold ∧
     (_add_pre_split_folder_if_present w ns).folds = ns.folds ∧
     (_add_pre_split_folder_if_present w ns).input_cat_columns = ns.input_cat_columns ∧
     (_add_pre_split_folder_if_present w ns).input_con_columns = ns.input_con_columns ∧
     (_add_pre_split_folder_if_present w ns).output_cat_columns = ns.output_cat_columns ∧
     (_add_pre_split_folder_if_present w ns).output_con_columns = ns.output_con_columns ∧
     (_add_pre_split_folder_if_present w ns).do_test = ns.do_test) := by
  constructor
  · intro h
    unfold parse_output_folders at h
    dsimp only at h
    split_ifs at h <;>
      first
      | exact Except.noConfusion h
      | (injection h with h'
         subst h'
         exact ⟨rfl, rfl, rfl, rfl, rfl, rfl, rfl, rfl, rfl, rfl, rfl, rfl, rfl, rfl⟩)
  · unfold _add_pre_split_folder_if_present
    dsimp only
    split_ifs <;>
      exact ⟨rfl, rfl, rfl, rfl, rfl, rfl, rfl, rfl, rfl, rfl, rfl, rfl, rfl, rfl, rfl,
        rfl, rfl⟩

/-- C5: whichever of the four validators fails first, `run` stops with
that validator's error having performed only the preceding validations:
its trace holds no folder resolution, no pre-split detection, no config
construction and no task submission. -/
theorem run_validation_fails_fast (w : World) (cl_args : Namespace) (e : String) :
    (validate_geno_data_path w cl_args.genotype_data_path = .error e →
      run w cl_args = ([], .error e)) ∧
    (validate_geno_data_path w cl_args.genotype_data_path = .ok () →
      validate_label_file w cl_args.label_file_path cl_args.input_cat_columns
          cl_args.input_con_columns cl_args.output_cat_columns
          cl_args.output_con_columns = .error e →
      run w cl_args = ([.validatedGeno], .error e)) ∧
    (validate_geno_data_path w cl_args.genotype_data_path = .ok () →
      validate_label_file w cl_args.label_file_path cl_args.input_cat_columns
          cl_args.input_con_columns cl_args.output_cat_columns
          cl_args.output_con_columns = .ok () →
      validate_targets cl_args.output_con_columns cl_args.output_cat_columns = .error e →
      run w cl_args = ([.validatedGeno, .validatedLabelFile], .error e)) ∧
    (validate_geno_data_path w cl_args.genotype_data_path = .ok () →
      validate_label_file w cl_args.label_file_path cl_args.input_cat_columns
          cl_args.input_con_columns cl_args.output_cat_columns
          cl_args.output_con_columns = .ok () →
      validate_targets cl_args.output_con_columns cl_args.output_cat_columns = .ok () →
      validate_plink2_exists_in_path w = .error e →
      run w cl_args =
        ([.validatedGeno, .validatedLabelFile, .validatedTargets], .error e)) := by
  refine ⟨fun h1 => ?_, fun h1 h2 => ?_, fun h1 h2 h3 => ?_, fun h1 h2 h3 h4 => ?_⟩ <;>
    simp [run, *]

/-- C5 (witness): with two output target columns (`phenotype2`
continuous and `phenotype` categorical) the run stops at target
validation — after only the genotype-path and label-file validations,
with no folder resolution, config construction or task submission. -/
theorem run_validation_fails_fast_witness :
    run exWorld { exArgs with output_con_columns := ["phenotype2"] } =
      ([Step.validatedGeno, Step.validatedLabelFile],
        .error ("Currently only one target column per run is supported. Got " ++
          pyStrListRepr ["phenotype2"] ++ " continuous and " ++
          pyStrListRepr ["phenotype"] ++ " categorical target columns.")) :=
  (run_validation_fails_fast exWorld
    { exArgs with output_con_columns := ["phenotype2"] }
    ("Currently only one target column per run is supported. Got " ++
      pyStrListRepr ["phenotype2"] ++ " continuous and " ++
      pyStrListRepr ["phenotype"] ++ " categorical target columns.")).2.2.1 rfl rfl rfl
